import Mathlib

/-!
Verification of the Bard-API client library (`bardapi/core.py`).

The development shallowly embeds the response-decoding, conversation-state
threading, credential resolution and link/code extraction logic of the
`Bard` class.  Python/JSON values are modelled by the mutual inductives
`PyVal`/`PyList`/`PyDict` (lists and dicts are first-order cons chains so
that every recursion over them is structural and kernel-reducible);
Python exceptions are modelled by `PyErr`; fallible Python code returns
`Except`.  `json.loads` is an external collaborator (the standard library)
and is passed in as an abstract parameter `loads : String → Option PyVal`
(`none` models a `ValueError` from the JSON parser).
-/

mutual
/-- A Python/JSON value: None, bool, int, str, list, or a str-keyed dict. -/
inductive PyVal where
  | vnone : PyVal
  | vbool : Bool → PyVal
  | vint : Int → PyVal
  | vstr : String → PyVal
  | vlist : PyList → PyVal
  | vdict : PyDict → PyVal
/-- A Python list of values (first-order cons chain). -/
inductive PyList where
  | nil : PyList
  | cons : PyVal → PyList → PyList
/-- A Python dict with string keys (first-order cons chain, keys unique). -/
inductive PyDict where
  | nil : PyDict
  | cons : String → PyVal → PyDict → PyDict
end

def PyList.toList : PyList → List PyVal
  | .nil => []
  | .cons x xs => x :: xs.toList

def PyList.ofList : List PyVal → PyList
  | [] => .nil
  | x :: xs => .cons x (PyList.ofList xs)

/-- Build a Python list value from a Lean list. -/
def pyL (xs : List PyVal) : PyVal := PyVal.vlist (PyList.ofList xs)

def PyDict.ofList : List (String × PyVal) → PyDict
  | [] => .nil
  | kv :: rest => .cons kv.fst kv.snd (PyDict.ofList rest)

/-- Build a Python dict value from a Lean association list. -/
def pyD (xs : List (String × PyVal)) : PyVal := PyVal.vdict (PyDict.ofList xs)

/-- Dict lookup (first binding wins; bindings are unique in this code). -/
def PyDict.lookup : PyDict → String → Option PyVal
  | .nil, _ => none
  | .cons k v rest, key => if k = key then some v else rest.lookup key

def PyDict.keys : PyDict → List String
  | .nil => []
  | .cons k _ rest => k :: rest.keys

def PyDict.length : PyDict → Nat
  | .nil => 0
  | .cons _ _ rest => rest.length + 1

/-- Python exception kinds raised by the embedded code. -/
inductive PyErr where
  | indexError : PyErr
  | typeError : PyErr
  | keyError : PyErr
  | valueError : PyErr
  | nameError : PyErr
  | exn : String → PyErr

/-- Python truthiness (`bool(v)`): None, False, 0, "", [] and an empty dict
are falsy. -/
def pyTruthy : PyVal → Bool
  | .vnone => false
  | .vbool b => b
  | .vint n => n != 0
  | .vstr s => !s.isEmpty
  | .vlist .nil => false
  | .vlist _ => true
  | .vdict .nil => false
  | .vdict _ => true

/-- Python `v is None`. -/
def pyIsNone : PyVal → Bool
  | .vnone => true
  | _ => false

/-- Python sequence indexing `xs[i]` with negative indices counting from the
end; `none` models an `IndexError`. -/
def listIndex {α : Type} (xs : List α) (i : Int) : Option α :=
  if i < 0 then
    let j : Int := (xs.length : Int) + i
    if j < 0 then none else xs.get? j.toNat
  else xs.get? i.toNat

def ofOpt {α : Type} (o : Option α) (e : PyErr) : Except PyErr α :=
  match o with
  | some x => Except.ok x
  | none => Except.error e

/-- Python subscript `v[i]` for an int index: lists index into their
elements, strings index into their characters (a 1-char string), anything
else is a `TypeError`. -/
def pyIndex (v : PyVal) (i : Int) : Except PyErr PyVal :=
  match v with
  | .vlist xs => ofOpt (listIndex xs.toList i) PyErr.indexError
  | .vstr s => ofOpt ((listIndex s.toList i).map (fun c => PyVal.vstr (String.mk [c]))) PyErr.indexError
  | _ => Except.error PyErr.typeError

/-- Python subscript `v[k]` for a string key (dict lookup). -/
def pyGetKey (v : PyVal) (k : String) : Except PyErr PyVal :=
  match v with
  | .vdict d => ofOpt (d.lookup k) PyErr.keyError
  | _ => Except.error PyErr.typeError

/-- Lookup in a returned Python dict modelled as an association list. -/
def dictGet (d : List (String × PyVal)) (k : String) : Except PyErr PyVal :=
  ofOpt (List.lookup k d) PyErr.keyError

/-- `json.loads(v)`: the argument must be a string (otherwise `TypeError`);
a string the parser cannot decode is a `ValueError`. -/
def pyLoads (loads : String → Option PyVal) (v : PyVal) : Except PyErr PyVal :=
  match v with
  | .vstr s => ofOpt (loads s) PyErr.valueError
  | _ => Except.error PyErr.typeError

/-- Python `len(v)` for the sized values; `TypeError` otherwise. -/
def pyLen (v : PyVal) : Except PyErr Nat :=
  match v with
  | .vstr s => Except.ok s.length
  | .vlist xs => Except.ok xs.toList.length
  | .vdict d => Except.ok d.length
  | _ => Except.error PyErr.typeError

/-- Python iteration `for x in v`: lists yield elements, strings yield their
characters as 1-char strings, dicts yield their keys; else `TypeError`. -/
def pyIterate (v : PyVal) : Except PyErr (List PyVal) :=
  match v with
  | .vlist xs => Except.ok xs.toList
  | .vstr s => Except.ok (s.toList.map (fun c => PyVal.vstr (String.mk [c])))
  | .vdict d => Except.ok (d.keys.map PyVal.vstr)
  | _ => Except.error PyErr.typeError

/-- The value must be a string (used where Python would pass it to an API
accepting only `str`, raising a `TypeError` otherwise). -/
def pyAsStr (v : PyVal) : Except PyErr String :=
  match v with
  | .vstr s => Except.ok s
  | _ => Except.error PyErr.typeError

/-- A rough model of Python `str(v)` as used inside f-strings (only ever
applied to strings and ints in the embedded code paths). -/
def pyStr : PyVal → String
  | .vnone => "None"
  | .vbool b => if b then "True" else "False"
  | .vint n => toString n
  | .vstr s => s
  | .vlist _ => "[...]"
  | .vdict _ => "\x7b...\x7d"

/-- Helper for `bytes.splitlines()` on newline-delimited bodies: accumulates
the current line (reversed) while scanning. -/
def splitLinesAux : List Char → List Char → List String
  | acc, [] => if acc.isEmpty then [] else [String.mk acc.reverse]
  | acc, '\n' :: rest => String.mk acc.reverse :: splitLinesAux [] rest
  | acc, c :: rest => splitLinesAux (c :: acc) rest

/-- Python `splitlines()` for newline-delimited response bodies: no trailing
empty line is produced when the body ends in a newline, and an empty body
yields no lines. -/
def pySplitlines (s : String) : List String := splitLinesAux [] s.toList

/-- Python `sub in s` on char lists (substring containment). -/
def subOf (needle : List Char) (hay : List Char) : Bool :=
  needle.isPrefixOf hay ||
    match hay with
    | [] => false
    | _ :: rest => subOf needle rest

/-- Python `sub in s` on strings. -/
def strContains (s sub : String) : Bool := subOf sub.toList s.toList

/-- Python `s.startswith(p)`. -/
def strStartsWith (s p : String) : Bool := p.toList.isPrefixOf s.toList

/-- Python `s.strip()`: drop whitespace from both ends. -/
def pyStrip (s : String) : String :=
  String.mk (((s.toList.dropWhile Char.isWhitespace).reverse.dropWhile Char.isWhitespace).reverse)

/-- Fuel-driven worker for Python `s.split(sep)` (non-overlapping,
left-to-right; an empty separator never occurs in this code base and is
treated as "no split").  The fuel only needs to exceed the length of the
input, which every caller guarantees; it makes the recursion structural. -/
def pySplitFuel (sep : List Char) : Nat → List Char → List (List Char)
  | 0, s => [s]
  | fuel + 1, s =>
    if !sep.isEmpty && sep.isPrefixOf s then
      [] :: pySplitFuel sep fuel (s.drop sep.length)
    else
      match s with
      | [] => [[]]
      | c :: rest =>
        match pySplitFuel sep fuel rest with
        | [] => [[c]]
        | g :: gs => (c :: g) :: gs

/-- Python `s.split(sep)` for a non-empty separator. -/
def pySplit (sep s : String) : List String :=
  (pySplitFuel sep.toList (s.toList.length + 1) s.toList).map (fun l => String.mk l)

/-- The predicate of `Bard._extract_links` (core.py lines 820-824): a string
is collected when it starts with "http" and does not contain the substring
"favicon". -/
def isLinkStr (s : String) : Bool := strStartsWith s "http" && !(strContains s "favicon")

mutual
/-- `Bard._extract_links` (core.py lines 805-826): recursive scan over the
nested data; a non-list input yields `[]`. -/
def extractLinks : PyVal → List String
  | PyVal.vlist xs => extractLinksL xs
  | _ => []
/-- The `for item in data` loop of `Bard._extract_links`: list items recurse
(`links.extend`), qualifying string items are appended, others are skipped. -/
def extractLinksL : PyList → List String
  | PyList.nil => []
  | PyList.cons (PyVal.vlist ys) rest => extractLinksL ys ++ extractLinksL rest
  | PyList.cons (PyVal.vstr s) rest => (if isLinkStr s then [s] else []) ++ extractLinksL rest
  | PyList.cons _ rest => extractLinksL rest
end

/-- All string values of a nested list, in scan order (specification helper
used to characterise `extractLinks` as a filter). -/
def flattenStrsL : PyList → List String
  | PyList.nil => []
  | PyList.cons (PyVal.vlist ys) rest => flattenStrsL ys ++ flattenStrsL rest
  | PyList.cons (PyVal.vstr s) rest => s :: flattenStrsL rest
  | PyList.cons _ rest => flattenStrsL rest

/-- String values of a `PyVal`, in scan order (empty for non-lists). -/
def flattenStrs : PyVal → List String
  | PyVal.vlist xs => flattenStrsL xs
  | _ => []

/-- Python `isinstance(v, list)`. -/
def isPyList : PyVal → Bool
  | .vlist _ => true
  | _ => false

/-- The fenced-code extraction of `Bard.get_answer` (core.py lines 331-337)
applied to a content string:
`program_lang = content.split("```")[1].split("\n")[0].strip()` and
`code = content.split("```")[1][len(program_lang):]`; any exception
(here only the `IndexError` of `[1]`) yields `(None, None)`. -/
def extractProgramLangCode (content : String) : Option String × Option String :=
  let parts := pySplit "```" content
  match parts.get? 1 with
  | none => (none, none)
  | some seg =>
    let programLang := pyStrip ((pySplit "\n" seg).headD "")
    let code := String.mk (seg.toList.drop programLang.length)
    (some programLang, some code)

/-- The fenced-code step of the full pipeline: the content fragment is
`parsed_answer[4][0][1][0]`; any failure to reach a string there is caught
by the surrounding `try`/`except` and yields `(None, None)`. -/
def langCodeOf (parsed : PyVal) : Option String × Option String :=
  match pyIndex parsed 4 >>= (pyIndex · 0) >>= (pyIndex · 1) >>= (pyIndex · 0) with
  | Except.ok (PyVal.vstr content) => extractProgramLangCode content
  | _ => (none, none)

/-- The literal chars of `nonce="` (the fixed part of the regular expression
`nonce="([^"]+)"` of `Bard._get_snim0e`, core.py line 181). -/
def nonceTag : List Char := "nonce=\"".toList

/-- Fuel-driven scan implementing `re.findall(r'nonce="([^"]+)"', text)`:
non-overlapping matches left to right; each match needs the literal tag, at
least one non-quote char, and a closing quote, and scanning resumes after
the closing quote.  The fuel only needs to exceed the input length. -/
def findNoncesFuel : Nat → List Char → List String
  | 0, _ => []
  | _ + 1, [] => []
  | fuel + 1, c :: rest =>
    if nonceTag.isPrefixOf (c :: rest) then
      let after := (c :: rest).drop nonceTag.length
      let cap := after.takeWhile (fun ch => ch != '"')
      let after2 := after.dropWhile (fun ch => ch != '"')
      if cap.isEmpty then findNoncesFuel fuel rest
      else
        match after2 with
        | '"' :: tail => String.mk cap :: findNoncesFuel fuel tail
        | _ => findNoncesFuel fuel rest
    else findNoncesFuel fuel rest

/-- `re.findall(r'nonce="([^"]+)"', text)`. -/
def findNonces (text : String) : List String :=
  findNoncesFuel (text.toList.length + 1) text.toList

/-- The dead guard of `Bard._get_snim0e` (core.py line 182): `snim0e == None`
compares the list returned by `re.findall` against `None`, which in Python
is `False` for every list, so the "not found" branch can never be taken. -/
def snim0eMissingCheck (_matches : List String) : Bool := false

/-- `Bard._get_snim0e` (core.py lines 165-186) after the landing-page fetch:
given the response status code and page text, raise when the status is not
200; otherwise run `re.findall` and return its result (note: the *list* of
matches, not a single string, and the missing-nonce check is dead code). -/
def getSnim0e (statusCode : Int) (pageText : String) : Except PyErr (List String) :=
  if statusCode != 200 then
    Except.error (PyErr.exn ("Response status code is not 200. Response Status is " ++ toString statusCode))
  else
    let snim0e := findNonces pageText
    if snim0eMissingCheck snim0e then
      Except.error (PyErr.exn "SNlM0e token value not found. Double-check cookies dict value or set 'auto_cookies' parametes as True.\nOccurs due to cookie changes. Re-enter new cookie, restart browser, re-login, or manually refresh cookie.")
    else Except.ok snim0e

/-- Python truthiness of an `Optional[str]`. -/
def pyTruthyOptStr (o : Option String) : Bool :=
  match o with
  | none => false
  | some s => !s.isEmpty

/-- The error message of `Bard._get_token` (core.py lines 137-139). -/
def noTokenMsg : String :=
  "Bard API Key must be provided as the 'token' argument or extracted from the browser."

/-- The required cookie names of the multi-cookie branch of `Bard._get_token`
(core.py lines 121-126). -/
def requiredCookies : List String :=
  ["__Secure-1PSID", "__Secure-1PSIDTS", "__Secure-1PSIDCC", "NID"]

/-- `Bard._get_token` (core.py lines 94-139).  `token` is the explicit
argument, `envToken` the value of `os.getenv("_BARD_API_KEY")` (`none` when
unset), and `extracted` models the cookie mapping produced by the external
collaborator `extract_bard_cookie` when browser extraction runs. -/
def getToken (token : Option String) (envToken : Option String) (tokenFromBrowser : Bool)
    (multiCookies : Bool) (extracted : List (String × String)) : Except PyErr String :=
  if pyTruthyOptStr token then Except.ok (token.getD "")
  else if pyTruthyOptStr envToken then Except.ok (envToken.getD "")
  else if tokenFromBrowser then
    if multiCookies &&
        (decide (extracted.length < requiredCookies.length) ||
          !(requiredCookies.all (fun k => (List.lookup k extracted).isSome))) then
      Except.ok ((List.lookup "__Secure-1PSID" extracted).getD "")
    else if !extracted.isEmpty then
      Except.ok ((List.lookup "__Secure-1PSID" extracted).getD "")
    else Except.error (PyErr.exn noTokenMsg)
  else Except.error (PyErr.exn noTokenMsg)

/-- The conversation state of a `Bard` instance: `conversation_id`,
`response_id`, `choice_id` (init `""`) and the `_reqid` counter (core.py
lines 77-80). -/
structure BardState where
  conversation_id : PyVal
  response_id : PyVal
  choice_id : PyVal
  reqid : Int

/-- `int("".join(random.choices(string.digits, k=4)))` (core.py line 77):
the initial `_reqid` is the value of 4 decimal digits. -/
def mkReqid (ds : List Nat) : Nat := ds.foldl (fun a d => 10 * a + d) 0

/-- Modelled from the spec: `build_input_text_struct` (bardapi.utils, not
under src/) embeds the conversation continuation identifiers of the current
state — conversation_id, response_id and choice_id — into the request
envelope of `get_answer`/`ask` (spec 4.2: "embedding conversation
continuation identifiers").  Only the embedded triple is observable here. -/
def requestIds (st : BardState) : PyVal × PyVal × PyVal :=
  (st.conversation_id, st.response_id, st.choice_id)

/-- The error message built when a response line's payload slot is falsy
(core.py lines 288-292); it carries the raw body. -/
def respErrorMsg (raw : String) : String :=
  "Response Error: " ++ raw ++ ". \nUnable to get response.\nPlease double-check the cookie values and verify your network environment or google account."

/-- The single-key error mapping returned on a falsy payload slot. -/
def errorDict (raw : String) : List (String × PyVal) :=
  [("content", PyVal.vstr (respErrorMsg raw))]

/-- `json.loads(lines[i])[0][2]`: the double-indexed payload slot of one
streamed response line (core.py lines 285, 295, 409, 587). -/
def lineSlot (loads : String → Option PyVal) (lines : List String) (i : Int) : Except PyErr PyVal := do
  let l ← ofOpt (listIndex lines i) PyErr.indexError
  let v ← ofOpt (loads l) PyErr.valueError
  let v0 ← pyIndex v 0
  pyIndex v0 2

/-- The image-gathering loop body of `Bard.get_answer` (core.py lines
303-304): appends `img[0][0][0]` for each item; an exception escaping the
loop is caught outside it, so the images appended so far are kept. -/
def imagesLoop : List PyVal → List PyVal → List PyVal
  | acc, [] => acc
  | acc, img :: rest =>
    match pyIndex img 0 >>= (pyIndex · 0) >>= (pyIndex · 0) with
    | Except.ok v => imagesLoop (acc ++ [v]) rest
    | Except.error _ => acc

/-- The image gathering of `Bard.get_answer` (core.py lines 299-306):
best-effort extraction of `resp_json[4][0][4]` guarded by
`except (IndexError, TypeError, KeyError)`. -/
def imagesOf (rj : PyVal) : List PyVal :=
  match (do
      let n ← pyLen rj
      if n ≥ 3 then do
        let nested ← pyIndex rj 4 >>= (pyIndex · 0) >>= (pyIndex · 4)
        pyIterate nested
      else pure [] : Except PyErr (List PyVal)) with
  | Except.error _ => []
  | Except.ok items => imagesLoop [] items

/-- Configuration and external translation collaborators of `get_answer`.
`allowed` is modelled from the spec: ALLOWED_LANGUAGES (bardapi.constants,
not under src/) is the provider's natively supported language set.  The four
functions model the external translation backends (deep_translator and the
official Google Cloud client); an `Except.error` models a raised exception
inside the collaborator. -/
structure TransCfg where
  language : Option String
  apiKey : Option String
  allowed : List String
  toEng : String → Except PyErr String
  officialToEng : String → Except PyErr String
  toTarget : String → Except PyErr String
  officialToTarget : String → Except PyErr String

/-- Python `x not in xs` for an `Optional[str]` against a list of strings
(`None not in xs` is `True`). -/
def pyNotInStrList (x : Option String) (xs : List String) : Bool :=
  match x with
  | none => true
  | some s => !(xs.contains s)

/-- The outbound translation step of `Bard.get_answer` (core.py lines
237-252): when a language is configured and not natively supported the
prompt is translated to English; there is no `try`/`except` here, so a
translation failure propagates. -/
def translateInput (cfg : TransCfg) (inputText : String) : Except PyErr String :=
  if cfg.language.isSome && pyNotInStrList cfg.language cfg.allowed && cfg.apiKey.isNone then
    cfg.toEng inputText
  else if cfg.language.isSome && pyNotInStrList cfg.language cfg.allowed && cfg.apiKey.isSome then
    cfg.officialToEng inputText
  else Except.ok inputText

/-- The inbound translation of `Bard.get_answer` (core.py lines 325-328):
`parsed_answer[4] = [[x[0], [translator_func(x[1][0])] + x[1][1:], x[2]]
for x in parsed_answer[4]]`; again no `try`/`except`, failures propagate. -/
def translateRespList (tf : String → Except PyErr String) (v4 : PyVal) : Except PyErr PyVal := do
  let xs ← pyIterate v4
  let ys ← xs.mapM (fun x => do
    let x0 ← pyIndex x 0
    let x1 ← pyIndex x 1
    let x10 ← pyIndex x1 0
    let s ← pyAsStr x10
    let t ← tf s
    let tail ← (match x1 with
      | PyVal.vlist l => Except.ok (l.toList.drop 1)
      | _ => Except.error PyErr.typeError)
    let x2 ← pyIndex x 2
    pure (pyL [x0, pyL (PyVal.vstr t :: tail), x2]))
  pure (pyL ys)

/-- Python list item assignment `v[i] = nv`. -/
def pySetIndex (v : PyVal) (i : Nat) (nv : PyVal) : Except PyErr PyVal :=
  match v with
  | PyVal.vlist xs =>
    if i < xs.toList.length then Except.ok (pyL (xs.toList.set i nv))
    else Except.error PyErr.indexError
  | _ => Except.error PyErr.typeError

/-- The `{"id": x[0], "content": x[1]}` comprehension over the candidate
choices (core.py line 642 and, modelled from the spec, build_bard_answer). -/
def mkChoices (v4 : PyVal) : Except PyErr (List PyVal) := do
  let xs ← pyIterate v4
  xs.mapM (fun x => do
    let i ← pyIndex x 0
    let c ← pyIndex x 1
    pure (pyD [("id", i), ("content", c)]))

/-- The fixed key set of the answer mapping (core.py docstring lines 213-225
and spec section 6). -/
def answerKeys : List String :=
  ["content", "conversation_id", "response_id", "factuality_queries", "text_query",
    "choices", "links", "images", "program_lang", "code", "status_code"]

/-- Wrap the optional extracted language/code as a Python value. -/
def optStrVal : Option String → PyVal
  | none => PyVal.vnone
  | some s => PyVal.vstr s

/-- The conditional expression `parsed[2][0] if parsed[2] else ""` (core.py
line 641 and, modelled from the spec, build_bard_answer). -/
def textQueryOf (p2 : PyVal) : Except PyErr PyVal :=
  if pyTruthy p2 then pyIndex p2 0 else Except.ok (PyVal.vstr "")

/-- Modelled from the spec: `build_bard_answer` (bardapi.utils, not under
src/) assembles the fixed-key answer mapping of `get_answer` from the
resolved answer array.  Field positions follow spec 4.3 and the inline
analogue of `Bard.ask_about_image` (core.py lines 636-648): primary content
`parsed[4][0][1][0]`, conversation id `parsed[1][0]`, response id
`parsed[1][1]`, factuality `parsed[3]`, echoed query `parsed[2][0]` when
`parsed[2]` is truthy else `""`, choices as id/content pairs from
`parsed[4]`, links by the recursive link scan over `parsed[4]`. -/
def buildBardAnswer (parsed : PyVal) (images : List PyVal) (pl code : Option String)
    (status : Int) : Except PyErr (List (String × PyVal)) := do
  let content ← pyIndex parsed 4 >>= (pyIndex · 0) >>= (pyIndex · 1) >>= (pyIndex · 0)
  let conv ← pyIndex parsed 1 >>= (pyIndex · 0)
  let rid ← pyIndex parsed 1 >>= (pyIndex · 1)
  let fact ← pyIndex parsed 3
  let p2 ← pyIndex parsed 2
  let tq ← textQueryOf p2
  let c4 ← pyIndex parsed 4
  let choices ← mkChoices c4
  pure [("content", content), ("conversation_id", conv), ("response_id", rid),
    ("factuality_queries", fact), ("text_query", tq), ("choices", pyL choices),
    ("links", pyL ((extractLinks c4).map PyVal.vstr)), ("images", pyL images),
    ("program_lang", optStrVal pl), ("code", optStrVal code), ("status_code", PyVal.vint status)]

/-- The conversation-state overwrite shared by `Bard.get_answer` (core.py
lines 344-350) and `Bard.ask_about_image` (lines 649-654): read
`conversation_id`, `response_id` and `choices[0]["id"]` back out of the
answer mapping and bump `_reqid` by 100000. -/
def stateUpdateFromAnswer (ans : List (String × PyVal)) (st : BardState) : Except PyErr BardState := do
  let conv ← dictGet ans "conversation_id"
  let rid ← dictGet ans "response_id"
  let chs ← dictGet ans "choices"
  let ch0 ← pyIndex chs 0
  let cid ← pyGetKey ch0 "id"
  pure { conversation_id := conv, response_id := rid, choice_id := cid, reqid := st.reqid + 100000 }

/-- The optional inbound-translation stage of `Bard.get_answer` (core.py
lines 313-328): when a language is configured and not natively supported,
replace `parsed_answer[4]` by its translated version (picking the backend
from the api key); otherwise leave the parsed answer unchanged. -/
def translateStage (cfg : TransCfg) (parsed0 : PyVal) : Except PyErr PyVal :=
  if cfg.language.isSome && pyNotInStrList cfg.language cfg.allowed then do
    let tf := if cfg.apiKey.isNone then cfg.toTarget else cfg.officialToTarget
    let v4 ← pyIndex parsed0 4
    let nv4 ← translateRespList tf v4
    pySetIndex parsed0 4 nv4
  else Except.ok parsed0

/-- The continuation of `Bard.get_answer` once a payload line has been
chosen (core.py lines 298-350): gather images from `resp_json`, re-parse the
chosen slot into `parsed_answer`, optionally translate the choice contents,
extract the fenced code block, assemble the answer mapping and update the
conversation state. -/
def decodeChosen (cfg : TransCfg) (loads : String → Option PyVal) (status : Int)
    (st : BardState) (slot : PyVal) : Except PyErr (List (String × PyVal) × BardState) := do
  let rj ← pyLoads loads slot
  let images := imagesOf rj
  let parsed0 ← pyLoads loads slot
  let parsed ← translateStage cfg parsed0
  let lc := langCodeOf parsed
  let ans ← buildBardAnswer parsed images lc.1 lc.2 status
  let st2 ← stateUpdateFromAnswer ans st
  pure (ans, st2)

/-- The response post-processing of `Bard.get_answer` (core.py lines
284-350): read the payload slot of the 5th line from the end; if it is falsy
return the single-key error mapping (state untouched); otherwise parse it
and, when its index-4 slot is `None`, re-read the slot from the 7th line
from the end (with no falsiness check there) before continuing. -/
def getAnswerCore (cfg : TransCfg) (loads : String → Option PyVal) (body : String)
    (status : Int) (st : BardState) : Except PyErr (List (String × PyVal) × BardState) := do
  let lines := pySplitlines body
  let slot ← lineSlot loads lines (-5)
  if !pyTruthy slot then pure (errorDict body, st)
  else do
    let rj0 ← pyLoads loads slot
    let s4 ← pyIndex rj0 4
    if pyIsNone s4 then do
      let slot2 ← lineSlot loads lines (-7)
      decodeChosen cfg loads status st slot2
    else decodeChosen cfg loads status st slot

/-- `Bard.get_answer` (core.py lines 188-360) without the network call:
translate the outbound prompt (failures propagate), then post-process the
raw streamed body against the current conversation state. -/
def getAnswerModel (cfg : TransCfg) (loads : String → Option PyVal) (inputText : String)
    (body : String) (status : Int) (st : BardState) : Except PyErr (List (String × PyVal) × BardState) := do
  let _tIn ← translateInput cfg inputText
  getAnswerCore cfg loads body status st

/-- The outbound translation chain of `Bard.ask_about_image` (core.py lines
519-542).  When no branch matches (configured language natively supported),
`translated_input_text` is never bound and its use at line 551 raises a
`NameError`; no branch is guarded by `try`/`except`, so failures propagate. -/
def aaiTranslateInput (language lang apiKey : Option String) (allowed : List String)
    (toEng officialToEng : String → Except PyErr String) (inputText : String) :
    Except PyErr String :=
  if language.isNone && lang.isNone then Except.ok inputText
  else if (language.isSome || lang.isSome) && pyNotInStrList language allowed && apiKey.isNone then
    toEng inputText
  else if (language.isSome || lang.isSome) && pyNotInStrList language allowed && apiKey.isSome then
    officialToEng inputText
  else if (language.isNone || lang.isNone) && pyNotInStrList language allowed && apiKey.isNone then
    toEng inputText
  else Except.error PyErr.nameError

/-- The inbound content translation chain of `Bard.ask_about_image` (core.py
lines 597-630), run inside the `try`: picks a backend and target from the
configured language, the per-call `lang` and the api key; `detect` models
`langdetect.detect` on the original input text.  The final branch is
unreachable (every combination of the three options is covered above). -/
def aaiChain (language lang apiKey : Option String)
    (fromEng official : String → String → Except PyErr String)
    (detect : String → Except PyErr String)
    (inputText : String) (contentV : PyVal) : Except PyErr PyVal :=
  if language.isNone && apiKey.isNone then Except.ok contentV
  else if language.isSome && apiKey.isNone then do
    let c ← pyAsStr contentV
    let t ← fromEng (language.getD "") c
    pure (PyVal.vstr t)
  else if lang.isSome && apiKey.isNone then do
    let c ← pyAsStr contentV
    let t ← fromEng (lang.getD "") c
    pure (PyVal.vstr t)
  else if (lang.isNone && language.isNone) && apiKey.isNone then do
    let us ← detect inputText
    let c ← pyAsStr contentV
    let t ← fromEng us c
    pure (PyVal.vstr t)
  else if language.isSome && apiKey.isSome then do
    let c ← pyAsStr contentV
    let t ← official (language.getD "") c
    pure (PyVal.vstr t)
  else if lang.isSome && apiKey.isSome then do
    let c ← pyAsStr contentV
    let t ← official (lang.getD "") c
    pure (PyVal.vstr t)
  else if (language.isNone && lang.isNone) && apiKey.isSome then do
    let us ← detect inputText
    let c ← pyAsStr contentV
    let t ← official us c
    pure (PyVal.vstr t)
  else Except.error PyErr.nameError

/-- The `try`/`except` around the inbound translation of
`Bard.ask_about_image` (core.py lines 596-633): a raised exception is
swallowed, a warning is printed (the returned flag) and the original
content is used. -/
def aaiTranslateContent (language lang apiKey : Option String)
    (fromEng official : String → String → Except PyErr String)
    (detect : String → Except PyErr String)
    (inputText : String) (contentV : PyVal) : PyVal × Bool :=
  match aaiChain language lang apiKey fromEng official detect inputText contentV with
  | Except.ok t => (t, false)
  | Except.error _ => (contentV, true)

/-- `Bard.ask_about_image` (core.py lines 478-655) without the network call
and image upload: outbound translation (failures propagate), then decoding
of line index 3 of the body, inbound translation (failures swallowed, flag
returned), the answer mapping literal of lines 636-648, and the state
overwrite of lines 649-654. -/
def askAboutImageModel (language lang apiKey : Option String) (allowed : List String)
    (toEng officialToEng : String → Except PyErr String)
    (fromEng official : String → String → Except PyErr String)
    (detect : String → Except PyErr String)
    (loads : String → Option PyVal) (inputText : String) (body : String) (status : Int)
    (st : BardState) : Except PyErr ((List (String × PyVal)) × BardState × Bool) := do
  let _t ← aaiTranslateInput language lang apiKey allowed toEng officialToEng inputText
  let lines := pySplitlines body
  let slot ← lineSlot loads lines 3
  if !pyTruthy slot then pure (errorDict body, st, false)
  else do
    let parsed ← pyLoads loads slot
    let contentV ← pyIndex parsed 4 >>= (pyIndex · 0) >>= (pyIndex · 1) >>= (pyIndex · 0)
    let tc := aaiTranslateContent language lang apiKey fromEng official detect inputText contentV
    let conv ← pyIndex parsed 1 >>= (pyIndex · 0)
    let rid ← pyIndex parsed 1 >>= (pyIndex · 1)
    let fact ← pyIndex parsed 3
    let p2 ← pyIndex parsed 2
    let tq ← textQueryOf p2
    let p4 ← pyIndex parsed 4
    let choices ← mkChoices p4
    let ans := [("content", tc.1), ("conversation_id", conv), ("response_id", rid),
      ("factuality_queries", fact), ("text_query", tq), ("choices", pyL choices),
      ("links", pyL ((extractLinks p4).map PyVal.vstr)), ("images", pyL [PyVal.vstr ""]),
      ("program_lang", PyVal.vstr ""), ("code", PyVal.vstr ""), ("status_code", PyVal.vint status)]
    let st2 ← stateUpdateFromAnswer ans st
    pure (ans, st2, tc.2)

/-- Modelled from the spec: `BardResult` (bardapi.models.result, not under
src/) wraps the resolved answer array, exposing the conversation id
(position `[1][0]`), the response id (`[1][1]`) and the candidate drafts
(position `[4]`, each draft's id at its position `[0]`), per spec 4.3;
structural mismatches default to null/empty. -/
structure BardRes where
  conversation_id : PyVal
  response_id : PyVal
  drafts : List PyVal

def mkBardResult (rj : PyVal) : BardRes :=
  { conversation_id := ((pyIndex rj 1 >>= (pyIndex · 0)).toOption.getD PyVal.vnone),
    response_id := ((pyIndex rj 1 >>= (pyIndex · 1)).toOption.getD PyVal.vnone),
    drafts := match pyIndex rj 4 with
      | Except.ok (PyVal.vlist xs) => xs.toList
      | _ => [] }

/-- The draft fallback of `Bard.ask` (core.py lines 716-717): when the last
decoded line yields a result without drafts, rebuild the result from the
second-to-last decoded line. -/
def askPickRes (jsons : List PyVal) (res0 : BardRes) : Except PyErr BardRes :=
  if res0.drafts.isEmpty then do
    let rj2 ← ofOpt (listIndex jsons (-2)) PyErr.indexError
    pure (mkBardResult rj2)
  else Except.ok res0

/-- `Bard.ask` (core.py lines 657-727) without the network call: reject a
non-200 status, keep only the body lines starting with `[["wrb.fr`,
double-decode each, take the last; a falsy payload hits the
`raise` of a dict literal at line 709, which is itself a `TypeError`
(a dict is not an exception); when the result has no drafts the
second-to-last line is used instead; finally the conversation state is
overwritten (lines 720-725). -/
def askModel (loads : String → Option PyVal) (body : String) (status : Int)
    (st : BardState) : Except PyErr (BardRes × BardState) := do
  if status != 200 then
    Except.error (PyErr.exn ("Response status code is not 200. Response Status is " ++ toString status))
  else do
    let lines := (pySplitlines body).filter (fun l => strStartsWith l "[[\"wrb.fr")
    let jsons ← lines.mapM (fun l => do
      let v ← ofOpt (loads l) PyErr.valueError
      let z ← pyIndex v 0 >>= (pyIndex · 2)
      pyLoads loads z)
    let rjson ← ofOpt (listIndex jsons (-1)) PyErr.indexError
    if !pyTruthy rjson then Except.error PyErr.typeError
    else do
      let res0 := mkBardResult rjson
      let res ← askPickRes jsons res0
      let d0 ← ofOpt (listIndex res.drafts 0) PyErr.indexError
      let cid ← pyIndex d0 0
      let st2 : BardState := { conversation_id := res.conversation_id, response_id := res.response_id, choice_id := cid, reqid := st.reqid + 100000 }
      pure (res, st2)

/-- `Bard.speech` (core.py lines 362-419) without the network call: decode
line index 3, return the error mapping on a falsy payload, otherwise
base64-decode `resp_json[0]` (`b64` models `base64.b64decode`; `none` a
decoding error).  Note: `speech` never increments `_reqid`, so the state is
returned unchanged on every path. -/
def speechModel (loads : String → Option PyVal) (b64 : String → Option String)
    (body : String) (status : Int) (st : BardState) :
    Except PyErr ((List (String × PyVal)) × BardState) := do
  let lines := pySplitlines body
  let slot ← lineSlot loads lines 3
  if !pyTruthy slot then pure (errorDict body, st)
  else do
    let rj ← pyLoads loads slot
    let a64 ← pyIndex rj 0
    let s ← pyAsStr a64
    let audio ← ofOpt (b64 s) PyErr.valueError
    pure ([("audio", PyVal.vstr audio), ("status_code", PyVal.vint status)], st)

/-- `Bard.export_conversation` (core.py lines 421-476) without the network
call: read the three identifiers out of the given answer mapping (they are
embedded in the export envelope), decode line index 3, build the share URL
from `json.loads(resp_dict[0][2])[2]`, and bump `_reqid`. -/
def exportConversationModel (loads : String → Option PyVal)
    (bardAnswer : List (String × PyVal)) (body : String) (status : Int) (st : BardState) :
    Except PyErr ((List (String × PyVal)) × BardState) := do
  let _conv ← dictGet bardAnswer "conversation_id"
  let _rid ← dictGet bardAnswer "response_id"
  let _cid ← dictGet bardAnswer "choices" >>= (pyIndex · 0) >>= (pyGetKey · "id")
  let lines := pySplitlines body
  let l3 ← ofOpt (listIndex lines 3) PyErr.indexError
  let rd ← ofOpt (loads l3) PyErr.valueError
  let z ← pyIndex rd 0 >>= (pyIndex · 2)
  let inner ← pyLoads loads z
  let urlId ← pyIndex inner 2
  pure ([("url", PyVal.vstr ("https://g.co/bard/share/" ++ pyStr urlId)),
    ("status_code", PyVal.vint status)], { st with reqid := st.reqid + 100000 })

/-- `Bard.export_replit` (core.py lines 729-803) without the network call.
`replitLangs` is modelled from the spec: REPLIT_SUPPORT_PROGRAM_LANGUAGES
(bardapi.constants, not under src/) maps supported languages to filenames.
An unsupported language without an explicit filename raises; otherwise the
body's line index 3 is double-decoded, the export URL is
`json.loads(resp_dict[0][2])[0]`, and `_reqid` is bumped. -/
def exportReplitModel (loads : String → Option PyVal) (replitLangs : List (String × String))
    (_code : String) (programLang filename : Option String) (body : String) (status : Int)
    (st : BardState) : Except PyErr ((List (String × PyVal)) × BardState) := do
  let inLangs := match programLang with
    | none => false
    | some l => (List.lookup l replitLangs).isSome
  if !inLangs && filename.isNone then
    Except.error (PyErr.exn ("Language " ++
      (match programLang with | none => "None" | some l => l) ++
      " not supported, please set filename manually."))
  else do
    let _filename := if filename.isNone then
        (match programLang with | none => none | some l => List.lookup l replitLangs)
      else filename
    let lines := pySplitlines body
    let l3 ← ofOpt (listIndex lines 3) PyErr.indexError
    let rd ← ofOpt (loads l3) PyErr.valueError
    let z ← pyIndex rd 0 >>= (pyIndex · 2)
    let inner ← pyLoads loads z
    let url ← pyIndex inner 0
    pure ([("url", url), ("status_code", PyVal.vint status)],
      { st with reqid := st.reqid + 100000 })

/-! Concrete scenario values used by the witnesses and counterexamples. -/

/-- An initial-like conversation state with seed 1234. -/
def st0 : BardState :=
  { conversation_id := PyVal.vstr "", response_id := PyVal.vstr "", choice_id := PyVal.vstr "", reqid := 1234 }

/-- Wrap a payload slot in the outer `[["wrb.fr", None, slot]]` line shape. -/
def wrb (slot : PyVal) : PyVal :=
  pyL [pyL [PyVal.vstr "wrb.fr", PyVal.vnone, slot]]

/-- A well-formed resolved answer array: `[1]` holds the conversation and
response ids, `[2]` the echoed query, `[3]` the factuality list, `[4]` the
single candidate choice `["rc_1", ["Hi"], None]`. -/
def innerOK : PyVal :=
  pyL [pyL [], pyL [PyVal.vstr "c_1", PyVal.vstr "r_1"],
    pyL [PyVal.vstr "tq"], pyL [],
    pyL [pyL [PyVal.vstr "rc_1", pyL [PyVal.vstr "Hi"], PyVal.vnone]]]

/-- A finite `json.loads` table covering the scenario strings. -/
def cloads (s : String) : Option PyVal :=
  if s = "LOK" then some (wrb (PyVal.vstr "INOK"))
  else if s = "INOK" then some innerOK
  else if s = "LE" then some (wrb (PyVal.vstr ""))
  else if s = "LN5" then some (wrb (PyVal.vstr "INN"))
  else if s = "INN" then some (pyL [PyVal.vnone, PyVal.vnone, PyVal.vnone, PyVal.vnone, PyVal.vnone])
  else if s = "LN7" then some (wrb PyVal.vnone)
  else if s = "[[\"wrb.frA" then some (wrb (PyVal.vstr "INOK"))
  else if s = "LSP" then some (wrb (PyVal.vstr "INSP"))
  else if s = "INSP" then some (pyL [PyVal.vstr "b64audio"])
  else if s = "LEX" then some (wrb (PyVal.vstr "INEX"))
  else if s = "INEX" then some (pyL [PyVal.vnone, PyVal.vnone, PyVal.vstr "shareid"])
  else if s = "LRP" then some (wrb (PyVal.vstr "INRP"))
  else if s = "INRP" then some (pyL [PyVal.vstr "https://replit.example/x"])
  else none

/-- Bodies: 7 lines so that index -5 is the third line and -7 the first. -/
def bodyOK : String := "l0\nl1\nLOK\nl3\nl4\nl5\nl6"
def bodyEmptySlot : String := "l0\nl1\nLE\nl3\nl4\nl5\nl6"
def bodyNullBoth : String := "LN7\nl1\nLN5\nl3\nl4\nl5\nl6"
def bodyFallback : String := "LOK\nl1\nLN5\nl3\nl4\nl5\nl6"
def bodyAsk : String := "[[\"wrb.frA"
def bodyLine3OK : String := "l0\nl1\nl2\nLOK"
def bodySpeech : String := "l0\nl1\nl2\nLSP"
def bodyExport : String := "l0\nl1\nl2\nLEX"
def bodyReplit : String := "l0\nl1\nl2\nLRP"

/-- A translation configuration with no language configured. -/
def cfgNone : TransCfg :=
  { language := none, apiKey := none, allowed := [],
    toEng := fun s => Except.ok s, officialToEng := fun s => Except.ok s,
    toTarget := fun s => Except.ok s, officialToTarget := fun s => Except.ok s }

/-- A configuration with an unsupported language whose unofficial
translator raises. -/
def cfgFail : TransCfg :=
  { language := some "xx", apiKey := none, allowed := ["en"],
    toEng := fun _ => Except.error (PyErr.exn "translation failed"),
    officialToEng := fun s => Except.ok s,
    toTarget := fun s => Except.ok s, officialToTarget := fun s => Except.ok s }

/-- A base64 decoder stub for the speech scenario. -/
def cb64 (s : String) : Option String := some ("bytes:" ++ s)

/-- The expected answer mapping of the `bodyOK` scenario. -/
def ansOK : List (String × PyVal) :=
  [("content", PyVal.vstr "Hi"), ("conversation_id", PyVal.vstr "c_1"),
    ("response_id", PyVal.vstr "r_1"), ("factuality_queries", pyL []),
    ("text_query", PyVal.vstr "tq"),
    ("choices", pyL [pyD [("id", PyVal.vstr "rc_1"), ("content", pyL [PyVal.vstr "Hi"])]]),
    ("links", pyL []), ("images", pyL []),
    ("program_lang", PyVal.vnone), ("code", PyVal.vnone), ("status_code", PyVal.vint 200)]

/-- The state after the `bodyOK` scenario. -/
def stOK : BardState :=
  { conversation_id := PyVal.vstr "c_1", response_id := PyVal.vstr "r_1",
    choice_id := PyVal.vstr "rc_1", reqid := 101234 }

def ansAAI : List (String × PyVal) :=
  [("content", PyVal.vstr "Hi"), ("conversation_id", PyVal.vstr "c_1"),
    ("response_id", PyVal.vstr "r_1"), ("factuality_queries", pyL []),
    ("text_query", PyVal.vstr "tq"),
    ("choices", pyL [pyD [("id", PyVal.vstr "rc_1"), ("content", pyL [PyVal.vstr "Hi"])]]),
    ("links", pyL []), ("images", pyL [PyVal.vstr ""]),
    ("program_lang", PyVal.vstr ""), ("code", PyVal.vstr ""), ("status_code", PyVal.vint 200)]

def resAsk : BardRes :=
  { conversation_id := PyVal.vstr "c_1", response_id := PyVal.vstr "r_1",
    drafts := [pyL [PyVal.vstr "rc_1", pyL [PyVal.vstr "Hi"], PyVal.vnone]] }


/-! Shared helper lemmas. -/

theorem ebind_ok {α β : Type} (x : Except PyErr α) (f : α → Except PyErr β) (b : β) :
    (x >>= f = Except.ok b) ↔ ∃ a, x = Except.ok a ∧ f a = Except.ok b := by
  cases x <;> simp [Bind.bind, Except.bind]

theorem extractLinksL_eq (xs : PyList) :
    extractLinksL xs = (flattenStrsL xs).filter isLinkStr := by
  induction xs using flattenStrsL.induct with
  | case1 => simp [extractLinksL, flattenStrsL]
  | case2 ys rest ih1 ih2 => simp [extractLinksL, flattenStrsL, ih1, ih2]
  | case3 s rest ih =>
      simp [extractLinksL, flattenStrsL, ih, List.filter]
      cases h : isLinkStr s <;> simp [h]
  | case4 x rest h1 h2 ih =>
      cases x <;> simp_all [extractLinksL, flattenStrsL]

theorem extractLinks_eq (v : PyVal) :
    extractLinks v = (flattenStrs v).filter isLinkStr := by
  cases v <;> simp [extractLinks, flattenStrs]
  exact extractLinksL_eq _

theorem extractLinksL_ofMap (l : List String) :
    extractLinksL (PyList.ofList (l.map PyVal.vstr)) = l.filter isLinkStr := by
  induction l with
  | nil => simp [PyList.ofList, extractLinksL]
  | cons s rest ih =>
      simp [PyList.ofList, extractLinksL, ih, List.filter]
      cases h : isLinkStr s <;> simp [h]

/-! C9 and C10: link extraction. -/

/-- C9: `_extract_links` is a recursive scan over the nested list structure
collecting exactly the string values that look like absolute URLs
(`startswith("http")`) while excluding icon-asset URLs (`"favicon" in s`);
in particular, for a nested list containing "https://example.com/a",
"https://example.com/favicon.ico" and non-string entries, the result is
exactly ["https://example.com/a"]. -/
theorem claim_C9 :
    extractLinks (pyL [PyVal.vstr "https://example.com/a",
      PyVal.vstr "https://example.com/favicon.ico", PyVal.vint 7, PyVal.vnone,
      pyL [PyVal.vint 1]]) = ["https://example.com/a"]
    ∧ ∀ v : PyVal, extractLinks v = (flattenStrs v).filter isLinkStr :=
  ⟨rfl, extractLinks_eq⟩

/-- C10: `_extract_links` is total: on every input it returns a list of
strings; a non-list input yields the empty list; every collected string
starts with "http" and does not contain the substring "favicon" anywhere
(exclusion is by substring match); and re-applying the extractor to its own
output (as a flat Python list) returns that output unchanged. -/
theorem claim_C10 : ∀ v : PyVal,
    (isPyList v = false → extractLinks v = [])
    ∧ (∀ s ∈ extractLinks v, strStartsWith s "http" = true ∧ strContains s "favicon" = false)
    ∧ extractLinks (pyL ((extractLinks v).map PyVal.vstr)) = extractLinks v := by
  intro v
  refine ⟨?_, ?_, ?_⟩
  · intro h
    cases v <;> simp_all [isPyList, extractLinks]
  · intro s hs
    rw [extractLinks_eq] at hs
    have hp := List.of_mem_filter hs
    have := Bool.and_eq_true _ _ |>.mp hp
    refine ⟨this.1, ?_⟩
    have h2 := this.2
    simp only [Bool.not_eq_true'] at h2
    exact h2
  · have hmem : ∀ s ∈ extractLinks v, isLinkStr s = true := by
      intro s hs
      rw [extractLinks_eq] at hs
      exact List.of_mem_filter hs
    calc extractLinks (pyL ((extractLinks v).map PyVal.vstr))
        = extractLinksL (PyList.ofList ((extractLinks v).map PyVal.vstr)) := rfl
      _ = (extractLinks v).filter isLinkStr := extractLinksL_ofMap _
      _ = extractLinks v := List.filter_eq_self.mpr hmem

/-- Witness for C10 at concrete inputs: a non-list input yields `[]`, the
filter facts hold for a collected link, and re-extraction is the identity on
the extracted output. -/
theorem claim_C10_witness :
    extractLinks (PyVal.vint 3) = []
    ∧ (strStartsWith "https://example.com/a" "http" = true
        ∧ strContains "https://example.com/a" "favicon" = false)
    ∧ extractLinks (pyL ((extractLinks (pyL [PyVal.vstr "https://example.com/a"])).map PyVal.vstr))
        = extractLinks (pyL [PyVal.vstr "https://example.com/a"]) :=
  ⟨(claim_C10 (PyVal.vint 3)).1 rfl,
    (claim_C10 (pyL [PyVal.vstr "https://example.com/a"])).2.1 "https://example.com/a" (by
      show "https://example.com/a" ∈ extractLinks (pyL [PyVal.vstr "https://example.com/a"])
      have : extractLinks (pyL [PyVal.vstr "https://example.com/a"]) = ["https://example.com/a"] := rfl
      rw [this]; exact List.mem_singleton.mpr rfl),
    (claim_C10 (pyL [PyVal.vstr "https://example.com/a"])).2.2⟩

/-- When the separator occurs nowhere in the input, Python `split` returns
the whole input as the single fragment. -/
theorem pySplitFuel_noSep (sep : List Char) :
    ∀ s : List Char, subOf sep s = false → ∀ fuel, pySplitFuel sep fuel s = [s] := by
  intro s
  induction s with
  | nil =>
      intro h fuel
      cases fuel with
      | zero => rfl
      | succ n =>
          unfold subOf at h
          simp only [Bool.or_eq_false_iff] at h
          simp [pySplitFuel, h.1]
  | cons c rest ih =>
      intro h fuel
      unfold subOf at h
      simp only [Bool.or_eq_false_iff] at h
      cases fuel with
      | zero => rfl
      | succ n =>
          simp [pySplitFuel, h.1, ih h.2 n]

theorem pySplit_noSep (sep content : String) (hsep : strContains content sep = false) :
    pySplit sep content = [content] := by
  unfold pySplit
  rw [pySplitFuel_noSep sep.toList content.toList hsep]
  rfl

/-! C3: fenced-code extraction. -/

/-- C3 counterexample: on the spec's primary input the extracted code body
is not "print(1)\n" — the code slice `content.split("```")[1][len(lang):]`
keeps the newline that separates the language line from the code, so the
code body is "\nprint(1)\n". -/
theorem claim_C3_cex :
    extractProgramLangCode "Here:\n```python\nprint(1)\n```" ≠ (some "python", some "print(1)\n") := by
  decide

/-- C3 (amended): fenced-code extraction yields program_lang "python" and
code "\nprint(1)\n" (the remainder after the declared language, including
the separating newline) for the primary input, and yields (None, None)
without raising for any content containing no triple-backtick. -/
theorem claim_C3 :
    extractProgramLangCode "Here:\n```python\nprint(1)\n```" = (some "python", some "\nprint(1)\n")
    ∧ ∀ content : String, strContains content "```" = false →
        extractProgramLangCode content = (none, none) := by
  refine ⟨rfl, ?_⟩
  intro content h
  unfold extractProgramLangCode
  rw [pySplit_noSep _ _ h]
  rfl

/-- Witness for C3 at a concrete no-backtick content string. -/
theorem claim_C3_witness :
    strContains "no fences here" "```" = false
    ∧ extractProgramLangCode "no fences here" = (none, none) :=
  ⟨by decide, claim_C3.2 "no fences here" (by decide)⟩

/-! C4: session setup nonce extraction. -/

/-- C4: `_get_snim0e` behaviour at the decisive inputs.  A non-200 status
raises as claimed; but on a 200 page with no nonce attribute the function
returns the empty `re.findall` list instead of raising (the guard
`snim0e == None` is never true for a list), and even on success it returns
the full list of matches rather than a string — contradicting its own
docstring ("Returns: str", "Raises ... if ... SNlM0e value is not found"). -/
theorem claim_C4 :
    getSnim0e 200 "<html></html>" = Except.ok []
    ∧ getSnim0e 404 "whatever" =
        Except.error (PyErr.exn "Response status code is not 200. Response Status is 404")
    ∧ getSnim0e 200 "a nonce=\"ABC123\" b" = Except.ok ["ABC123"] :=
  ⟨rfl, rfl, rfl⟩

/-! C7: credential resolution precedence. -/

theorem isEmpty_false_of_ne (s : String) (h : s ≠ "") : s.isEmpty = false := by
  cases hs : s.isEmpty
  · rfl
  · exact absurd ((String.isEmpty_iff s).mp hs) h

/-- C7 counterexample: the environment variable is not "used when set" —
with no token, `_BARD_API_KEY` set to the empty string and browser
extraction disabled, the constructor raises instead of returning the set
value; moreover with browser extraction enabled in multi-cookie mode and an
empty extracted mapping, the function returns the empty string "" instead
of failing, so it does not fail whenever no source yields a credential. -/
theorem claim_C7_cex :
    getToken none (some "") false false [] = Except.error (PyErr.exn noTokenMsg)
    ∧ getToken none none true true [] = Except.ok "" :=
  ⟨rfl, rfl⟩

/-- C7 (amended): a non-empty explicit token is returned regardless of the
other sources; otherwise a non-empty environment value is returned
(an empty-string environment value is treated as unset); otherwise, with
browser extraction enabled, a non-empty extracted mapping yields its
`__Secure-1PSID` value ("" when the key is absent), and in multi-cookie
mode a mapping missing required cookies yields the same lookup without
failing; the constructor raises only when token and environment are
empty/absent and browser extraction is disabled or yields an empty mapping
in single-cookie mode. -/
theorem claim_C7 :
    (∀ (t : String) (env : Option String) (b m : Bool) (ex : List (String × String)),
      t ≠ "" → getToken (some t) env b m ex = Except.ok t)
    ∧ (∀ (token : Option String) (env : String) (b m : Bool) (ex : List (String × String)),
      pyTruthyOptStr token = false → env ≠ "" →
        getToken token (some env) b m ex = Except.ok env)
    ∧ (∀ (token envT : Option String) (ex : List (String × String)),
      pyTruthyOptStr token = false → pyTruthyOptStr envT = false → ex ≠ [] →
        getToken token envT true false ex = Except.ok ((List.lookup "__Secure-1PSID" ex).getD ""))
    ∧ (∀ (token envT : Option String) (m : Bool) (ex : List (String × String)),
      pyTruthyOptStr token = false → pyTruthyOptStr envT = false →
        getToken token envT false m ex = Except.error (PyErr.exn noTokenMsg))
    ∧ (∀ (token envT : Option String),
      pyTruthyOptStr token = false → pyTruthyOptStr envT = false →
        getToken token envT true false [] = Except.error (PyErr.exn noTokenMsg)) := by
  refine ⟨?_, ?_, ?_, ?_, ?_⟩
  · intro t env b m ex ht
    have h1 : pyTruthyOptStr (some t) = true := by
      simp [pyTruthyOptStr, isEmpty_false_of_ne t ht]
    simp [getToken, h1]
  · intro token env b m ex htok henv
    have h1 : pyTruthyOptStr (some env) = true := by
      simp [pyTruthyOptStr, isEmpty_false_of_ne env henv]
    simp [getToken, htok, h1]
  · intro token envT ex htok henv hex
    simp [getToken, htok, henv, hex]
  · intro token envT m ex htok henv
    simp [getToken, htok, henv]
  · intro token envT htok henv
    simp [getToken, htok, henv]

/-- Witness for C7 at concrete inputs for each precedence branch. -/
theorem claim_C7_witness :
    getToken (some "tok") (some "envv") true true [("k", "v")] = Except.ok "tok"
    ∧ getToken none (some "envv") false false [] = Except.ok "envv"
    ∧ getToken none none true false [("__Secure-1PSID", "cookieval")] = Except.ok "cookieval"
    ∧ getToken none none false false [("__Secure-1PSID", "cookieval")] = Except.error (PyErr.exn noTokenMsg)
    ∧ getToken none none true false [] = Except.error (PyErr.exn noTokenMsg) := by
  refine ⟨claim_C7.1 "tok" (some "envv") true true [("k", "v")] (by decide),
    claim_C7.2.1 none "envv" false false [] (by decide) (by decide),
    ?_,
    claim_C7.2.2.2.1 none none false [("__Secure-1PSID", "cookieval")] (by decide) (by decide),
    claim_C7.2.2.2.2 none none (by decide) (by decide)⟩
  have h := claim_C7.2.2.1 none none [("__Secure-1PSID", "cookieval")] (by decide) (by decide) (by decide)
  simpa using h

/-! Shape lemmas for the decode pipelines. -/

theorem buildBardAnswer_keys (parsed : PyVal) (images : List PyVal) (pl code : Option String)
    (status : Int) (a : List (String × PyVal))
    (h : buildBardAnswer parsed images pl code status = Except.ok a) :
    a.map Prod.fst = answerKeys := by
  unfold buildBardAnswer at h
  rw [ebind_ok] at h; obtain ⟨content, _, h⟩ := h
  rw [ebind_ok] at h; obtain ⟨conv, _, h⟩ := h
  rw [ebind_ok] at h; obtain ⟨rid, _, h⟩ := h
  rw [ebind_ok] at h; obtain ⟨fact, _, h⟩ := h
  rw [ebind_ok] at h; obtain ⟨p2, _, h⟩ := h
  rw [ebind_ok] at h; obtain ⟨tq, _, h⟩ := h
  rw [ebind_ok] at h; obtain ⟨c4, _, h⟩ := h
  rw [ebind_ok] at h; obtain ⟨choices, _, h⟩ := h
  simp only [pure, Except.pure, Except.ok.injEq] at h
  subst h
  simp [answerKeys]

theorem stateUpdate_facts (ans : List (String × PyVal)) (st st' : BardState)
    (h : stateUpdateFromAnswer ans st = Except.ok st') :
    dictGet ans "conversation_id" = Except.ok st'.conversation_id
    ∧ dictGet ans "response_id" = Except.ok st'.response_id
    ∧ (dictGet ans "choices" >>= (pyIndex · 0) >>= (pyGetKey · "id")) = Except.ok st'.choice_id
    ∧ st'.reqid = st.reqid + 100000 := by
  unfold stateUpdateFromAnswer at h
  rw [ebind_ok] at h; obtain ⟨conv, hconv, h⟩ := h
  rw [ebind_ok] at h; obtain ⟨rid, hrid, h⟩ := h
  rw [ebind_ok] at h; obtain ⟨chs, hchs, h⟩ := h
  rw [ebind_ok] at h; obtain ⟨ch0, hch0, h⟩ := h
  rw [ebind_ok] at h; obtain ⟨cid, hcid, h⟩ := h
  simp only [pure, Except.pure, Except.ok.injEq] at h
  subst h
  refine ⟨hconv, hrid, ?_, rfl⟩
  rw [ebind_ok]
  refine ⟨ch0, ?_, hcid⟩
  rw [ebind_ok]
  exact ⟨chs, hchs, hch0⟩

theorem decodeChosen_shape (cfg : TransCfg) (loads : String → Option PyVal) (status : Int)
    (st : BardState) (slot : PyVal) (ans : List (String × PyVal)) (st2 : BardState)
    (h : decodeChosen cfg loads status st slot = Except.ok (ans, st2)) :
    stateUpdateFromAnswer ans st = Except.ok st2 ∧ ans.map Prod.fst = answerKeys := by
  unfold decodeChosen at h
  rw [ebind_ok] at h; obtain ⟨rj, _, h⟩ := h
  simp only [] at h
  rw [ebind_ok] at h; obtain ⟨parsed0, _, h⟩ := h
  rw [ebind_ok] at h; obtain ⟨parsed, _, h⟩ := h
  rw [ebind_ok] at h; obtain ⟨ans0, hans0, h⟩ := h
  rw [ebind_ok] at h; obtain ⟨st20, hst20, h⟩ := h
  simp only [pure, Except.pure, Except.ok.injEq, Prod.mk.injEq] at h
  obtain ⟨h1, h2⟩ := h
  subst h1; subst h2
  exact ⟨hst20, buildBardAnswer_keys _ _ _ _ _ _ hans0⟩

theorem getAnswerCore_cases (cfg : TransCfg) (loads : String → Option PyVal) (body : String)
    (status : Int) (st : BardState) (ans : List (String × PyVal)) (st' : BardState)
    (h : getAnswerCore cfg loads body status st = Except.ok (ans, st')) :
    (ans = errorDict body ∧ st' = st)
    ∨ (stateUpdateFromAnswer ans st = Except.ok st' ∧ ans.map Prod.fst = answerKeys) := by
  unfold getAnswerCore at h
  simp only [] at h
  rw [ebind_ok] at h; obtain ⟨slot, hslot, h⟩ := h
  split at h
  · simp only [pure, Except.pure, Except.ok.injEq, Prod.mk.injEq] at h
    exact Or.inl ⟨h.1.symm, h.2.symm⟩
  · rw [ebind_ok] at h; obtain ⟨rj0, _, h⟩ := h
    rw [ebind_ok] at h; obtain ⟨s4, _, h⟩ := h
    split at h
    · rw [ebind_ok] at h; obtain ⟨slot2, _, h⟩ := h
      exact Or.inr (decodeChosen_shape _ _ _ _ _ _ _ h)
    · exact Or.inr (decodeChosen_shape _ _ _ _ _ _ _ h)

theorem getAnswerModel_cases (cfg : TransCfg) (loads : String → Option PyVal)
    (inputText body : String) (status : Int) (st : BardState)
    (ans : List (String × PyVal)) (st' : BardState)
    (h : getAnswerModel cfg loads inputText body status st = Except.ok (ans, st')) :
    (ans = errorDict body ∧ st' = st)
    ∨ (stateUpdateFromAnswer ans st = Except.ok st' ∧ ans.map Prod.fst = answerKeys) := by
  unfold getAnswerModel at h
  rw [ebind_ok] at h; obtain ⟨tIn, _, h⟩ := h
  exact getAnswerCore_cases _ _ _ _ _ _ _ h

theorem ofOpt_ok {α : Type} (o : Option α) (e : PyErr) (a : α) :
    ofOpt o e = Except.ok a ↔ o = some a := by
  cases o <;> simp [ofOpt]

theorem aai_cases (language lang apiKey : Option String) (allowed : List String)
    (toEng officialToEng : String → Except PyErr String)
    (fromEng official : String → String → Except PyErr String)
    (detect : String → Except PyErr String) (loads : String → Option PyVal)
    (inputText body : String) (status : Int) (st : BardState)
    (ans : List (String × PyVal)) (st2 : BardState) (w : Bool)
    (h : askAboutImageModel language lang apiKey allowed toEng officialToEng fromEng official
      detect loads inputText body status st = Except.ok (ans, st2, w)) :
    (ans = errorDict body ∧ st2 = st)
    ∨ (stateUpdateFromAnswer ans st = Except.ok st2 ∧ ans.map Prod.fst = answerKeys) := by
  unfold askAboutImageModel at h
  rw [ebind_ok] at h; obtain ⟨t, _, h⟩ := h
  simp only [] at h
  rw [ebind_ok] at h; obtain ⟨slot, _, h⟩ := h
  split at h
  · simp only [pure, Except.pure, Except.ok.injEq, Prod.mk.injEq] at h
    exact Or.inl ⟨h.1.symm, h.2.1.symm⟩
  · rw [ebind_ok] at h; obtain ⟨parsed, _, h⟩ := h
    rw [ebind_ok] at h; obtain ⟨contentV, _, h⟩ := h
    rw [ebind_ok] at h; obtain ⟨conv, _, h⟩ := h
    rw [ebind_ok] at h; obtain ⟨rid, _, h⟩ := h
    rw [ebind_ok] at h; obtain ⟨fact, _, h⟩ := h
    rw [ebind_ok] at h; obtain ⟨p2, _, h⟩ := h
    rw [ebind_ok] at h; obtain ⟨tq, _, h⟩ := h
    rw [ebind_ok] at h; obtain ⟨p4, _, h⟩ := h
    rw [ebind_ok] at h; obtain ⟨choices, _, h⟩ := h
    rw [ebind_ok] at h; obtain ⟨st2x, hst2, h⟩ := h
    simp only [pure, Except.pure, Except.ok.injEq, Prod.mk.injEq] at h
    obtain ⟨hans, hst, _⟩ := h
    subst hans; subst hst
    exact Or.inr ⟨hst2, by simp [answerKeys]⟩

theorem askModel_facts (loads : String → Option PyVal) (body : String) (status : Int)
    (st : BardState) (res : BardRes) (st' : BardState)
    (h : askModel loads body status st = Except.ok (res, st')) :
    st'.conversation_id = res.conversation_id
    ∧ st'.response_id = res.response_id
    ∧ (∃ d, listIndex res.drafts 0 = some d ∧ pyIndex d 0 = Except.ok st'.choice_id)
    ∧ st'.reqid = st.reqid + 100000 := by
  unfold askModel at h
  split at h
  · exact absurd h (by simp)
  · simp only [] at h
    rw [ebind_ok] at h; obtain ⟨jsons, _, h⟩ := h
    rw [ebind_ok] at h; obtain ⟨rjson, _, h⟩ := h
    split at h
    · exact absurd h (by simp)
    · rw [ebind_ok] at h; obtain ⟨res1, _, h⟩ := h
      rw [ebind_ok] at h; obtain ⟨d0, hd0, h⟩ := h
      rw [ebind_ok] at h; obtain ⟨cid, hcid, h⟩ := h
      simp only [pure, Except.pure, Except.ok.injEq, Prod.mk.injEq] at h
      obtain ⟨hres, hst⟩ := h
      subst hres; subst hst
      exact ⟨rfl, rfl, ⟨d0, (ofOpt_ok _ _ _).mp hd0, hcid⟩, rfl⟩

theorem speechModel_state (loads : String → Option PyVal) (b64 : String → Option String)
    (body : String) (status : Int) (st : BardState) (p : (List (String × PyVal)) × BardState)
    (h : speechModel loads b64 body status st = Except.ok p) : p.2 = st := by
  unfold speechModel at h
  simp only [] at h
  rw [ebind_ok] at h; obtain ⟨slot, _, h⟩ := h
  split at h
  · simp only [pure, Except.pure, Except.ok.injEq] at h
    rw [← h]
  · rw [ebind_ok] at h; obtain ⟨rj, _, h⟩ := h
    rw [ebind_ok] at h; obtain ⟨a64, _, h⟩ := h
    rw [ebind_ok] at h; obtain ⟨s, _, h⟩ := h
    rw [ebind_ok] at h; obtain ⟨audio, _, h⟩ := h
    simp only [pure, Except.pure, Except.ok.injEq] at h
    rw [← h]

theorem exportConversationModel_state (loads : String → Option PyVal)
    (bardAnswer : List (String × PyVal)) (body : String) (status : Int) (st : BardState)
    (p : (List (String × PyVal)) × BardState)
    (h : exportConversationModel loads bardAnswer body status st = Except.ok p) :
    p.2 = { st with reqid := st.reqid + 100000 } := by
  unfold exportConversationModel at h
  rw [ebind_ok] at h; obtain ⟨conv, _, h⟩ := h
  rw [ebind_ok] at h; obtain ⟨rid, _, h⟩ := h
  rw [ebind_ok] at h; obtain ⟨cid, _, h⟩ := h
  simp only [] at h
  rw [ebind_ok] at h; obtain ⟨l3, _, h⟩ := h
  rw [ebind_ok] at h; obtain ⟨rd, _, h⟩ := h
  rw [ebind_ok] at h; obtain ⟨z, _, h⟩ := h
  rw [ebind_ok] at h; obtain ⟨inner, _, h⟩ := h
  rw [ebind_ok] at h; obtain ⟨urlId, _, h⟩ := h
  simp only [pure, Except.pure, Except.ok.injEq] at h
  rw [← h]

theorem exportReplitModel_state (loads : String → Option PyVal)
    (replitLangs : List (String × String)) (code : String) (programLang filename : Option String)
    (body : String) (status : Int) (st : BardState) (p : (List (String × PyVal)) × BardState)
    (h : exportReplitModel loads replitLangs code programLang filename body status st = Except.ok p) :
    p.2 = { st with reqid := st.reqid + 100000 } := by
  unfold exportReplitModel at h
  simp only [] at h
  split at h
  · exact absurd h (by simp)
  · rw [ebind_ok] at h; obtain ⟨l3, _, h⟩ := h
    rw [ebind_ok] at h; obtain ⟨rd, _, h⟩ := h
    rw [ebind_ok] at h; obtain ⟨z, _, h⟩ := h
    rw [ebind_ok] at h; obtain ⟨inner, _, h⟩ := h
    rw [ebind_ok] at h; obtain ⟨url, _, h⟩ := h
    simp only [pure, Except.pure, Except.ok.injEq] at h
    rw [← h]

/-! C1: empty-payload fallback policy of `get_answer`. -/

/-- C1 counterexample: a body whose primary (-5) line has a null index-4
payload slot and whose fallback (-7) line has a null payload string makes
`get_answer` raise a `TypeError` (from `json.loads(None)` at core.py line
296) past the caller, instead of reporting the empty-response mapping —
so after a failed fallback no empty-response condition is reported. -/
theorem claim_C1_cex :
    getAnswerModel cfgNone cloads "q" bodyNullBoth 200 st0 = Except.error PyErr.typeError := rfl

/-- C1 (amended): if the payload slot of the primary line (5th from the
end) is falsy, `get_answer` returns the single-key error mapping carrying
the raw body (state untouched) without raising and without trying the
fallback line; if the primary slot is truthy but decodes with `None` at
index 4, the decoder continues from the payload slot of the fallback line
(7th from the end); but nothing re-checks the fallback payload, so when the
fallback also fails to yield a payload the call raises past the caller
(see the counterexample). -/
theorem claim_C1 :
    ∀ (cfg : TransCfg) (loads : String → Option PyVal) (it body : String) (status : Int)
      (st : BardState) (tIn : String) (slot : PyVal),
    translateInput cfg it = Except.ok tIn →
    lineSlot loads (pySplitlines body) (-5) = Except.ok slot →
    ((pyTruthy slot = false →
        getAnswerModel cfg loads it body status st = Except.ok (errorDict body, st))
     ∧ (∀ rj0 s4, pyTruthy slot = true → pyLoads loads slot = Except.ok rj0 →
          pyIndex rj0 4 = Except.ok s4 → pyIsNone s4 = true →
          getAnswerModel cfg loads it body status st =
            (lineSlot loads (pySplitlines body) (-7)) >>= decodeChosen cfg loads status st)) := by
  intro cfg loads it body status st tIn slot htr hslot
  constructor
  · intro hfalse
    simp [getAnswerModel, getAnswerCore, htr, hslot, hfalse, Bind.bind, Except.bind, pure, Except.pure]
  · intro rj0 s4 htrue hrj0 hs4 hnone
    simp [getAnswerModel, getAnswerCore, htr, hslot, htrue, hrj0, hs4, hnone, Bind.bind, Except.bind]

/-- Witness for C1: the falsy-primary branch on `bodyEmptySlot` and the
null-payload fallback branch on `bodyFallback`, at concrete inputs. -/
theorem claim_C1_witness :
    getAnswerModel cfgNone cloads "q" bodyEmptySlot 200 st0 = Except.ok (errorDict bodyEmptySlot, st0)
    ∧ getAnswerModel cfgNone cloads "q" bodyFallback 200 st0 =
        (lineSlot cloads (pySplitlines bodyFallback) (-7)) >>= decodeChosen cfgNone cloads 200 st0 :=
  ⟨(claim_C1 cfgNone cloads "q" bodyEmptySlot 200 st0 "q" (PyVal.vstr "") rfl rfl).1 rfl,
    (claim_C1 cfgNone cloads "q" bodyFallback 200 st0 "q" (PyVal.vstr "INN") rfl rfl).2
      (pyL [PyVal.vnone, PyVal.vnone, PyVal.vnone, PyVal.vnone, PyVal.vnone]) PyVal.vnone
      rfl rfl rfl rfl⟩

/-! C2: conversation-state overwrite and continuity. -/

/-- C2: after every successful decode (one that produces the full answer
mapping rather than the empty-payload error mapping), `get_answer`
overwrites `conversation_id`/`response_id` with the decoded values and
`choice_id` with the id of the candidate choice at index 0; likewise
`ask_about_image` (from its inline mapping) and `ask` (from the decoded
result's ids and first draft); and the identifiers embedded in the request
envelope of the next `get_answer`/`ask` call (`requestIds`) are exactly the
stored triple, i.e. those extracted from the previous answer. -/
theorem claim_C2 :
    (∀ (cfg : TransCfg) (loads : String → Option PyVal) (it body : String) (status : Int)
       (st : BardState) (ans : List (String × PyVal)) (st' : BardState),
      getAnswerModel cfg loads it body status st = Except.ok (ans, st') →
      ans ≠ errorDict body →
        dictGet ans "conversation_id" = Except.ok st'.conversation_id
        ∧ dictGet ans "response_id" = Except.ok st'.response_id
        ∧ (dictGet ans "choices" >>= (pyIndex · 0) >>= (pyGetKey · "id")) = Except.ok st'.choice_id
        ∧ requestIds st' = (st'.conversation_id, st'.response_id, st'.choice_id))
    ∧ (∀ (language lang apiKey : Option String) (allowed : List String)
        (toEng officialToEng : String → Except PyErr String)
        (fromEng official : String → String → Except PyErr String)
        (detect : String → Except PyErr String) (loads : String → Option PyVal)
        (it body : String) (status : Int) (st : BardState)
        (ans : List (String × PyVal)) (st2 : BardState) (w : Bool),
      askAboutImageModel language lang apiKey allowed toEng officialToEng fromEng official
        detect loads it body status st = Except.ok (ans, st2, w) →
      ans ≠ errorDict body →
        dictGet ans "conversation_id" = Except.ok st2.conversation_id
        ∧ dictGet ans "response_id" = Except.ok st2.response_id
        ∧ (dictGet ans "choices" >>= (pyIndex · 0) >>= (pyGetKey · "id")) = Except.ok st2.choice_id)
    ∧ (∀ (loads : String → Option PyVal) (body : String) (status : Int) (st : BardState)
        (res : BardRes) (st' : BardState),
      askModel loads body status st = Except.ok (res, st') →
        st'.conversation_id = res.conversation_id
        ∧ st'.response_id = res.response_id
        ∧ (∃ d, listIndex res.drafts 0 = some d ∧ pyIndex d 0 = Except.ok st'.choice_id)
        ∧ requestIds st' = (st'.conversation_id, st'.response_id, st'.choice_id)) := by
  refine ⟨?_, ?_, ?_⟩
  · intro cfg loads it body status st ans st' h hne
    rcases getAnswerModel_cases _ _ _ _ _ _ _ _ h with he | ⟨hupd, _⟩
    · exact absurd he.1 hne
    · obtain ⟨h1, h2, h3, _⟩ := stateUpdate_facts _ _ _ hupd
      exact ⟨h1, h2, h3, rfl⟩
  · intro language lang apiKey allowed toEng officialToEng fromEng official detect loads
      it body status st ans st2 w h hne
    rcases aai_cases _ _ _ _ _ _ _ _ _ _ _ _ _ _ _ _ _ h with he | ⟨hupd, _⟩
    · exact absurd he.1 hne
    · obtain ⟨h1, h2, h3, _⟩ := stateUpdate_facts _ _ _ hupd
      exact ⟨h1, h2, h3⟩
  · intro loads body status st res st' h
    obtain ⟨h1, h2, h3, _⟩ := askModel_facts _ _ _ _ _ _ h
    exact ⟨h1, h2, h3, rfl⟩

/-- Witness for C2: the three operations on concrete successful runs. -/
theorem claim_C2_witness :
    (dictGet ansOK "conversation_id" = Except.ok stOK.conversation_id
      ∧ dictGet ansOK "response_id" = Except.ok stOK.response_id
      ∧ (dictGet ansOK "choices" >>= (pyIndex · 0) >>= (pyGetKey · "id")) = Except.ok stOK.choice_id
      ∧ requestIds stOK = (stOK.conversation_id, stOK.response_id, stOK.choice_id))
    ∧ (dictGet ansAAI "conversation_id" = Except.ok stOK.conversation_id
      ∧ dictGet ansAAI "response_id" = Except.ok stOK.response_id
      ∧ (dictGet ansAAI "choices" >>= (pyIndex · 0) >>= (pyGetKey · "id")) = Except.ok stOK.choice_id)
    ∧ (stOK.conversation_id = resAsk.conversation_id
      ∧ stOK.response_id = resAsk.response_id
      ∧ (∃ d, listIndex resAsk.drafts 0 = some d ∧ pyIndex d 0 = Except.ok stOK.choice_id)
      ∧ requestIds stOK = (stOK.conversation_id, stOK.response_id, stOK.choice_id)) := by
  refine ⟨?_, ?_, ?_⟩
  · exact claim_C2.1 cfgNone cloads "q" bodyOK 200 st0 ansOK stOK rfl
      (fun h => by simpa [ansOK, errorDict] using congrArg List.length h)
  · exact claim_C2.2.1 none none none [] Except.ok Except.ok (fun _ => Except.ok)
      (fun _ => Except.ok) Except.ok cloads "q" bodyLine3OK 200 st0 ansAAI stOK false rfl
      (fun h => by simpa [ansAAI, errorDict] using congrArg List.length h)
  · exact claim_C2.2.2 cloads bodyAsk 200 st0 resAsk stOK rfl

/-! C5: translation failure policy. -/

/-- C5 counterexample: in `get_answer` with a configured unsupported
language, a failing translator aborts the whole call — the error propagates
to the caller instead of the original untranslated text being used. -/
theorem claim_C5_cex :
    getAnswerModel cfgFail cloads "hola" bodyOK 200 st0 =
      Except.error (PyErr.exn "translation failed") := rfl

/-- C5 (amended): the outbound translation of `get_answer` (core.py lines
237-252) is not guarded, so a translation failure propagates and aborts the
call; only the inbound content translation of `ask_about_image` (lines
596-633) is caught: on failure the original content is used and a warning
flag is raised, and on success the translated content is used without a
warning. -/
theorem claim_C5 :
    (∀ (cfg : TransCfg) (it body : String) (status : Int) (st : BardState) (e : PyErr)
       (loads : String → Option PyVal),
      cfg.language.isSome = true → pyNotInStrList cfg.language cfg.allowed = true →
      cfg.apiKey = none → cfg.toEng it = Except.error e →
        getAnswerModel cfg loads it body status st = Except.error e)
    ∧ (∀ (language lang apiKey : Option String)
        (fromEng official : String → String → Except PyErr String)
        (detect : String → Except PyErr String) (it : String) (contentV : PyVal) (e : PyErr),
      aaiChain language lang apiKey fromEng official detect it contentV = Except.error e →
        aaiTranslateContent language lang apiKey fromEng official detect it contentV
          = (contentV, true))
    ∧ (∀ (language lang apiKey : Option String)
        (fromEng official : String → String → Except PyErr String)
        (detect : String → Except PyErr String) (it : String) (contentV t : PyVal),
      aaiChain language lang apiKey fromEng official detect it contentV = Except.ok t →
        aaiTranslateContent language lang apiKey fromEng official detect it contentV
          = (t, false)) := by
  refine ⟨?_, ?_, ?_⟩
  · intro cfg it body status st e loads h1 h2 h3 h4
    simp [getAnswerModel, translateInput, h1, h2, h3, h4, Bind.bind, Except.bind]
  · intro language lang apiKey fromEng official detect it contentV e h
    simp [aaiTranslateContent, h]
  · intro language lang apiKey fromEng official detect it contentV t h
    simp [aaiTranslateContent, h]

/-- Witness for C5: a concrete aborted `get_answer` call, a concrete caught
`ask_about_image` translation failure, and a concrete successful one. -/
theorem claim_C5_witness :
    getAnswerModel cfgFail (fun _ => none) "hola" "" 200 st0 =
      Except.error (PyErr.exn "translation failed")
    ∧ aaiTranslateContent (some "fr") none none (fun _ _ => Except.error (PyErr.exn "boom"))
        (fun _ _ => Except.ok "t") Except.ok "q" (PyVal.vstr "Hello") = (PyVal.vstr "Hello", true)
    ∧ aaiTranslateContent none none none (fun _ _ => Except.ok "t")
        (fun _ _ => Except.ok "t") Except.ok "q" (PyVal.vstr "Hello") = (PyVal.vstr "Hello", false) :=
  ⟨claim_C5.1 cfgFail "hola" "" 200 st0 (PyErr.exn "translation failed") (fun _ => none)
      rfl rfl rfl rfl,
    claim_C5.2.1 (some "fr") none none (fun _ _ => Except.error (PyErr.exn "boom"))
      (fun _ _ => Except.ok "t") Except.ok "q" (PyVal.vstr "Hello") (PyErr.exn "boom") rfl,
    claim_C5.2.2 none none none (fun _ _ => Except.ok "t") (fun _ _ => Except.ok "t")
      Except.ok "q" (PyVal.vstr "Hello") (PyVal.vstr "Hello") rfl⟩

/-! C6: the request counter `_reqid`. -/

/-- C6 counterexample: a successful `speech` exchange leaves `_reqid`
unchanged (the returned state is exactly the input state `st0`), so the
counter is not incremented after every completed exchange of every public
operation; moreover the empty-payload early return of `get_answer` also
completes without incrementing. -/
theorem claim_C6_cex :
    speechModel cloads cb64 bodySpeech 200 st0 =
      Except.ok ([("audio", PyVal.vstr "bytes:b64audio"), ("status_code", PyVal.vint 200)], st0)
    ∧ getAnswerModel cfgNone cloads "q" bodyEmptySlot 200 st0 =
        Except.ok (errorDict bodyEmptySlot, st0) :=
  ⟨rfl, rfl⟩

/-- C6 (amended): `_reqid` starts as the value of 4 random decimal digits
(hence below 10000); it is incremented by exactly 100000 after every
successfully decoded exchange of `get_answer`, `ask_about_image`, `ask`,
`export_conversation` and `export_replit` (the empty-payload early returns
of `get_answer`/`ask_about_image` leave it unchanged), while `speech` never
increments it; consequently the counter is monotonically non-decreasing
over the instance's lifetime. -/
theorem claim_C6 :
    (∀ ds : List Nat, ds.length = 4 → (∀ d ∈ ds, d < 10) → mkReqid ds < 10000)
    ∧ (∀ (cfg : TransCfg) (loads : String → Option PyVal) (it body : String) (status : Int)
        (st : BardState) (ans : List (String × PyVal)) (st' : BardState),
      getAnswerModel cfg loads it body status st = Except.ok (ans, st') →
        st'.reqid = st.reqid + 100000 ∨ st' = st)
    ∧ (∀ (language lang apiKey : Option String) (allowed : List String)
        (toEng officialToEng : String → Except PyErr String)
        (fromEng official : String → String → Except PyErr String)
        (detect : String → Except PyErr String) (loads : String → Option PyVal)
        (it body : String) (status : Int) (st : BardState)
        (ans : List (String × PyVal)) (st2 : BardState) (w : Bool),
      askAboutImageModel language lang apiKey allowed toEng officialToEng fromEng official
        detect loads it body status st = Except.ok (ans, st2, w) →
        st2.reqid = st.reqid + 100000 ∨ st2 = st)
    ∧ (∀ (loads : String → Option PyVal) (body : String) (status : Int) (st : BardState)
        (res : BardRes) (st' : BardState),
      askModel loads body status st = Except.ok (res, st') → st'.reqid = st.reqid + 100000)
    ∧ (∀ (loads : String → Option PyVal) (bardAnswer : List (String × PyVal)) (body : String)
        (status : Int) (st : BardState) (p : (List (String × PyVal)) × BardState),
      exportConversationModel loads bardAnswer body status st = Except.ok p →
        p.2.reqid = st.reqid + 100000)
    ∧ (∀ (loads : String → Option PyVal) (replitLangs : List (String × String)) (code : String)
        (programLang filename : Option String) (body : String) (status : Int) (st : BardState)
        (p : (List (String × PyVal)) × BardState),
      exportReplitModel loads replitLangs code programLang filename body status st = Except.ok p →
        p.2.reqid = st.reqid + 100000)
    ∧ (∀ (loads : String → Option PyVal) (b64 : String → Option String) (body : String)
        (status : Int) (st : BardState) (p : (List (String × PyVal)) × BardState),
      speechModel loads b64 body status st = Except.ok p → p.2 = st)
    ∧ (∀ (cfg : TransCfg) (loads : String → Option PyVal) (it body : String) (status : Int)
        (st : BardState) (ans : List (String × PyVal)) (st' : BardState),
      getAnswerModel cfg loads it body status st = Except.ok (ans, st') →
        st.reqid ≤ st'.reqid)
    ∧ (∀ (loads : String → Option PyVal) (b64 : String → Option String) (body : String)
        (status : Int) (st : BardState) (p : (List (String × PyVal)) × BardState),
      speechModel loads b64 body status st = Except.ok p → st.reqid ≤ p.2.reqid) := by
  refine ⟨?_, ?_, ?_, ?_, ?_, ?_, ?_, ?_, ?_⟩
  · intro ds h1 h2
    rcases ds with _ | ⟨a, _ | ⟨b, _ | ⟨c, _ | ⟨d, _ | ⟨e, rest⟩⟩⟩⟩⟩ <;>
      simp_all [mkReqid]
    omega
  · intro cfg loads it body status st ans st' h
    rcases getAnswerModel_cases _ _ _ _ _ _ _ _ h with he | ⟨hupd, _⟩
    · exact Or.inr he.2
    · exact Or.inl (stateUpdate_facts _ _ _ hupd).2.2.2
  · intro language lang apiKey allowed toEng officialToEng fromEng official detect loads
      it body status st ans st2 w h
    rcases aai_cases _ _ _ _ _ _ _ _ _ _ _ _ _ _ _ _ _ h with he | ⟨hupd, _⟩
    · exact Or.inr he.2
    · exact Or.inl (stateUpdate_facts _ _ _ hupd).2.2.2
  · intro loads body status st res st' h
    exact (askModel_facts _ _ _ _ _ _ h).2.2.2
  · intro loads bardAnswer body status st p h
    rw [exportConversationModel_state _ _ _ _ _ _ h]
  · intro loads replitLangs code programLang filename body status st p h
    rw [exportReplitModel_state _ _ _ _ _ _ _ _ _ h]
  · intro loads b64 body status st p h
    exact speechModel_state _ _ _ _ _ _ h
  · intro cfg loads it body status st ans st' h
    rcases getAnswerModel_cases _ _ _ _ _ _ _ _ h with he | ⟨hupd, _⟩
    · rw [he.2]
    · rw [(stateUpdate_facts _ _ _ hupd).2.2.2]; omega
  · intro loads b64 body status st p h
    rw [speechModel_state _ _ _ _ _ _ h]

/-- Witness for C6 on concrete runs of every operation. -/
theorem claim_C6_witness :
    mkReqid [1, 2, 3, 4] < 10000
    ∧ (stOK.reqid = st0.reqid + 100000 ∨ stOK = st0)
    ∧ (stOK.reqid = st0.reqid + 100000)
    ∧ ((exportConversationModel cloads ansOK bodyExport 200 st0).isOk = true)
    ∧ st0.reqid ≤ stOK.reqid := by
  refine ⟨claim_C6.1 [1, 2, 3, 4] rfl (by decide), ?_, ?_, by rfl, ?_⟩
  · exact claim_C6.2.1 cfgNone cloads "q" bodyOK 200 st0 ansOK stOK rfl
  · exact claim_C6.2.2.2.1 cloads bodyAsk 200 st0 resAsk stOK rfl
  · exact claim_C6.2.2.2.2.2.2.2.1 cfgNone cloads "q" bodyOK 200 st0 ansOK stOK rfl

/-! C8: the fixed key set of `get_answer`'s result. -/

/-- C8 counterexample: on a body whose payload slot is falsy, `get_answer`
returns a mapping with the single key "content" — not the eleven fixed
keys — so the fixed-key contract does not hold for every response body. -/
theorem claim_C8_cex :
    getAnswerModel cfgNone cloads "q" bodyEmptySlot 200 st0 =
      Except.ok (errorDict bodyEmptySlot, st0)
    ∧ (errorDict bodyEmptySlot).map Prod.fst = ["content"]
    ∧ ["content"] ≠ answerKeys :=
  ⟨rfl, rfl, by decide⟩

/-- C8 (amended): whenever `get_answer` returns a mapping, either it is the
fully decoded answer, whose keys are exactly content, conversation_id,
response_id, factuality_queries, text_query, choices, links, images,
program_lang, code, status_code (in this order) and which also drives the
state update; or it is the empty-payload early return, whose only key is
content and which leaves the state untouched. -/
theorem claim_C8 :
    ∀ (cfg : TransCfg) (loads : String → Option PyVal) (it body : String) (status : Int)
      (st : BardState) (ans : List (String × PyVal)) (st' : BardState),
    getAnswerModel cfg loads it body status st = Except.ok (ans, st') →
    (ans.map Prod.fst = answerKeys ∧ stateUpdateFromAnswer ans st = Except.ok st')
    ∨ (ans = errorDict body ∧ ans.map Prod.fst = ["content"] ∧ st' = st) := by
  intro cfg loads it body status st ans st' h
  rcases getAnswerModel_cases _ _ _ _ _ _ _ _ h with he | ⟨hupd, hkeys⟩
  · exact Or.inr ⟨he.1, by rw [he.1]; rfl, he.2⟩
  · exact Or.inl ⟨hkeys, hupd⟩

/-- Witness for C8 on the concrete successful run. -/
theorem claim_C8_witness :
    (ansOK.map Prod.fst = answerKeys ∧ stateUpdateFromAnswer ansOK st0 = Except.ok stOK)
    ∨ (ansOK = errorDict bodyOK ∧ ansOK.map Prod.fst = ["content"] ∧ stOK = st0) :=
  claim_C8 cfgNone cloads "q" bodyOK 200 st0 ansOK stOK rfl
